import Mathlib

/-!
Verification of the preloaded schema/guide index and its per-session
deduplicating tool layer (`framework/index.py`, `tools/explore_database.py`,
`tools/get_business_rules.py`).

The Python code is shallowly embedded: Python `dict`s become association
lists with insertion-order-preserving update (`dictInsert`) and first-match
lookup (`dictGet`), Python `set`s become lists with membership, strings are
Lean `String`s (lists of characters), and the regular expressions used by
the guide matcher are translated into explicit recursive scanners with the
same leftmost-match semantics.
-/

namespace AgentIdx

/-- Python whitespace set used by `str.strip` / `\s` (ASCII fragment). -/
def pyIsSpace (c : Char) : Bool :=
  c = ' ' || c = '\t' || c = '\n' || c = '\r' || c = '\x0b' || c = '\x0c'

/-- Drop matching characters from the end of a character list. -/
def dropWhileEndP (p : Char → Bool) (l : List Char) : List Char :=
  (l.reverse.dropWhile p).reverse

/-- Python `str.strip()` on a character list. -/
def pyStrip (l : List Char) : List Char :=
  dropWhileEndP pyIsSpace (l.dropWhile pyIsSpace)

/-- Python `str.lstrip("# ")`: drop leading characters belonging to `{'#',' '}`. -/
def lstripHashSpace (l : List Char) : List Char :=
  l.dropWhile (fun c => c = '#' || c = ' ')

/-- Python `str.lower()` (ASCII fragment). -/
def strLower (s : String) : String :=
  String.mk (s.data.map Char.toLower)

/-- Python `sep.join(pieces)`. -/
def pyJoin (sep : String) : List String → String
  | [] => ""
  | x :: xs => xs.foldl (fun acc y => acc ++ sep ++ y) x

/-- Lexicographic (code-point) order on character lists, Python's `<=` on `str`. -/
def charListLe : List Char → List Char → Bool
  | [], _ => true
  | _ :: _, [] => false
  | a :: as, b :: bs => if a < b then true else if a = b then charListLe as bs else false

/-- Insert into an already sorted list, keeping the order. -/
def insertSorted (x : String) : List String → List String
  | [] => [x]
  | y :: ys => if charListLe x.data y.data then x :: y :: ys else y :: insertSorted x ys

/-- Python `sorted` on a list of strings (code-point lexicographic order). -/
def sortStr (l : List String) : List String :=
  l.foldr insertSorted []

/-- Python dict update: replace in place when the key exists, else append. -/
def dictInsert (d : List (String × α)) (k : String) (v : α) : List (String × α) :=
  if d.any (fun p => p.1 == k) then
    d.map (fun p => if p.1 == k then (k, v) else p)
  else
    d ++ [(k, v)]

/-- Python `dict.get`: value of the first (unique) binding of `k`. -/
def dictGet (d : List (String × α)) (k : String) : Option α :=
  (d.find? (fun p => p.1 == k)).map (fun p => p.2)

/-- `ColumnInfo` from `framework/index.py`. -/
structure ColumnInfo where
  name : String
  type : String
  nullable : Bool
deriving DecidableEq, Repr

/-- `TableInfo` from `framework/index.py`. -/
structure TableInfo where
  columns : List ColumnInfo := []
  sample_rows : List (List String) := []
deriving DecidableEq, Repr

/-- `GuideInfo` from `framework/index.py`. -/
structure GuideInfo where
  file : String
  content : String
deriving DecidableEq, Repr

/-- `AgentIndex` from `framework/index.py`: schema → table → TableInfo and
schema → GuideInfo, both insertion-ordered mappings. -/
structure AgentIndex where
  schemas : List (String × List (String × TableInfo)) := []
  guides : List (String × GuideInfo) := []
deriving DecidableEq, Repr

/-- `AgentIndex.get_schema_list`: sorted schema names. -/
def get_schema_list (idx : AgentIndex) : List String :=
  sortStr (idx.schemas.map Prod.fst)

/-- `AgentIndex.get_tables`: sorted table names of a schema, `[]` when unknown. -/
def get_tables (idx : AgentIndex) (schema : String) : List String :=
  match dictGet idx.schemas schema with
  | none => []
  | some tables => sortStr (tables.map Prod.fst)

/-- `AgentIndex.get_table_info`. -/
def get_table_info (idx : AgentIndex) (schema table : String) : Option TableInfo :=
  match dictGet idx.schemas schema with
  | none => none
  | some tables => dictGet tables table

/-- One line of the column list: `  name (type[, nullable])`. -/
def fmtColumn (c : ColumnInfo) : String :=
  "  " ++ c.name ++ " (" ++ c.type ++ (if c.nullable then ", nullable" else "") ++ ")"

/-- The sample-rows section of `get_table_description`: blank line, count
header, column-name header row, dash separator, then one line per row. -/
def sampleSection (display_cols : List ColumnInfo) (info : TableInfo)
    (max_columns : Nat) : List String :=
  let col_names := display_cols.map (fun c => c.name)
  ["", "Sample rows (" ++ toString info.sample_rows.length ++ "):",
   "  " ++ pyJoin " | " col_names,
   "  " ++ String.mk (List.replicate (col_names.foldl (fun a n => a + (n.length + 3)) 0) '-')]
  ++ info.sample_rows.map (fun row => "  " ++ pyJoin " | " (row.take max_columns))

/-- The `lines` list built by `AgentIndex.get_table_description` for a found
table, before joining with newlines. -/
def table_desc_lines (schema table : String) (max_columns : Nat)
    (info : TableInfo) : List String :=
  let columns := info.columns
  let truncated : Bool := decide (max_columns < columns.length)
  let display_cols := columns.take max_columns
  (["Table: " ++ schema ++ "." ++ table ++ " (" ++ toString columns.length ++ " columns)",
    "", "Columns:"]
   ++ display_cols.map fmtColumn
   ++ (if truncated then
        ["  ... and " ++ toString (columns.length - max_columns) ++ " more columns",
         "  (Use run_query with SELECT * ... LIMIT 3 to see all columns)"]
      else [])
   ++ (if !info.sample_rows.isEmpty && !truncated then
        sampleSection display_cols info max_columns
      else []))

/-- `AgentIndex.get_table_description`. -/
def get_table_description (idx : AgentIndex) (schema table : String)
    (max_columns : Nat := 40) : String :=
  match get_table_info idx schema table with
  | none => "Table '" ++ schema ++ "." ++ table ++ "' not found."
  | some info => pyJoin "\n" (table_desc_lines schema table max_columns info)

/-- `AgentIndex.get_business_rules`: guide content for a schema, if any. -/
def get_business_rules (idx : AgentIndex) (schema : String) : Option String :=
  match dictGet idx.guides schema with
  | none => none
  | some guide => some guide.content

/-- `AgentIndex.get_all_guide_topics`: sorted guide schema names. -/
def get_all_guide_topics (idx : AgentIndex) : List String :=
  sortStr (idx.guides.map Prod.fst)

/-- `re.search(r"\(([^)]+)\)", title)`: contents of the first parenthesized
group that is non-empty and closed; leftmost-match semantics. -/
def findParenGroup : List Char → Option (List Char)
  | [] => none
  | c :: rest =>
    if c = '(' then
      let inner := rest.takeWhile (fun d => d ≠ ')')
      if inner ≠ [] ∧ inner.length < rest.length then some inner
      else findParenGroup rest
    else findParenGroup rest

/-- Separator predicate of `re.split(r"[/,]", inner)`. -/
def isSlashComma (c : Char) : Bool := c = '/' || c = ','

/-- `re.split` on single separator characters (empty pieces kept). -/
def splitSingle (p : Char → Bool) : List Char → List (List Char)
  | [] => [[]]
  | c :: rest =>
    if p c then [] :: splitSingle p rest
    else
      match splitSingle p rest with
      | [] => [[c]]
      | piece :: more => (c :: piece) :: more

/-- Collapse the empty pieces a separator run leaves between two separators,
keeping a leading/trailing empty piece. -/
def dropMidEmpties : List (List Char) → List (List Char)
  | [] => []
  | [y] => [y]
  | y :: z :: ys => if y.isEmpty then dropMidEmpties (z :: ys) else y :: dropMidEmpties (z :: ys)

/-- `re.split(r"[sep]+", s)`: split on maximal runs of separator characters. -/
def splitRuns (p : Char → Bool) (l : List Char) : List (List Char) :=
  match splitSingle p l with
  | [] => []
  | x :: rest => x :: dropMidEmpties rest

/-- `re.sub(r"\s+Databases?\s*$", "", candidate)`: drop a trailing literal
`Database`/`Databases` (case-sensitive) plus the whitespace run before it and
any whitespace after it; unchanged when the pattern does not match. -/
def stripDbSuffix (l : List Char) : List Char :=
  let rest := dropWhileEndP pyIsSpace l
  let core? : Option (List Char) :=
    if "Databases".data.isSuffixOf rest then some (rest.take (rest.length - 9))
    else if "Database".data.isSuffixOf rest then some (rest.take (rest.length - 8))
    else none
  match core? with
  | none => l
  | some core =>
    let pre := dropWhileEndP pyIsSpace core
    if pre.length < core.length then pre else l

/-- `\w` character class (ASCII fragment). -/
def isWordChar (c : Char) : Bool := c.isAlpha || c.isDigit || c = '_'

/-- `re.search(r"(\w+)\s+Database", title)`: the captured word of the leftmost
occurrence of a word followed by whitespace and the literal `Database`. -/
def searchWordDatabase : List Char → Option (List Char)
  | [] => none
  | c :: rest =>
    if isWordChar c then
      let after := (c :: rest).dropWhile isWordChar
      if (after.head?.any pyIsSpace) &&
         ("Database".data.isPrefixOf (after.dropWhile pyIsSpace)) then
        some ((c :: rest).takeWhile isWordChar)
      else searchWordDatabase rest
    else searchWordDatabase rest

/-- Processing of one candidate inside the title parenthetical: strip, strip
the `Database(s)` suffix, strip, lowercase, look up among the known schemas. -/
def processCand (known : List (String × String)) (cand : List Char) : Option String :=
  dictGet known (strLower (String.mk (pyStrip (stripDbSuffix (pyStrip cand)))))

/-- `AgentIndex._extract_schema_from_title`: parenthetical rule, then the
`<word> Database` title-suffix rule. -/
def extract_schema_from_title (title : String)
    (known : List (String × String)) : Option String :=
  let parenResult : Option String :=
    match findParenGroup title.data with
    | some inner => (splitSingle isSlashComma inner).findSome? (processCand known)
    | none => none
  match parenResult with
  | some s => some s
  | none =>
    match searchWordDatabase title.data with
    | some w => dictGet known (strLower (String.mk w))
    | none => none

/-- Separator predicate of `re.split(r"[_\-\s]+", stem)`. -/
def fuzzySep (c : Char) : Bool := c = '_' || c = '-' || pyIsSpace c

/-- `AgentIndex._fuzzy_match_filename`: first token of the lowercased filename
stem (split on runs of `_`, `-`, whitespace) that is a known schema name. -/
def fuzzy_match_filename (stem : String)
    (known : List (String × String)) : Option String :=
  (splitRuns fuzzySep (strLower stem).data).findSome?
    (fun tok => dictGet known (String.mk tok))

/-- A guide document as read from the guides directory: filename stem,
filename, and full text content. -/
structure GuideDoc where
  stem : String
  file : String
  content : String
deriving DecidableEq, Repr

/-- `known_lower = {s.lower(): s for s in self.schemas}`. -/
def knownLower (names : List String) : List (String × String) :=
  names.foldl (fun acc s => dictInsert acc (strLower s) s) []

/-- First line of the guide content, stripped and with the leading heading
marker removed: `content.split("\n", 1)[0].strip().lstrip("# ").strip()`. -/
def firstLineTitle (content : String) : String :=
  String.mk (pyStrip (lstripHashSpace (pyStrip (content.data.takeWhile (fun c => c ≠ '\n')))))

/-- Loop body of `AgentIndex._scan_guides` for one guide document. -/
def scan_guide_step (known : List (String × String)) (acc : AgentIndex)
    (doc : GuideDoc) : AgentIndex :=
  let schema_name : Option String :=
    match extract_schema_from_title (firstLineTitle doc.content) known with
    | some s => some s
    | none => fuzzy_match_filename doc.stem known
  match schema_name with
  | some s => { acc with guides := dictInsert acc.guides s ⟨doc.file, doc.content⟩ }
  | none => acc

/-- `AgentIndex._scan_guides` over an already-enumerated, filename-sorted list
of guide documents. -/
def scan_guides (idx : AgentIndex) (docs : List GuideDoc) : AgentIndex :=
  docs.foldl (scan_guide_step (knownLower (idx.schemas.map Prod.fst))) idx

/-- Per-session dedup state: the `_schemas_listed` flag and `_described` set
of `make_explore_tools` and the `_fetched` set of `make_business_rules_tool`. -/
structure SessionState where
  schemasListed : Bool := false
  described : List (String × String) := []
  fetched : List String := []
deriving DecidableEq, Repr

/-- The four tool operations exposed to the agent runtime. -/
inductive ToolCall where
  | listSchemas
  | listTables (schema_name : String)
  | describeTable (schema_name table_name : String)
  | getBusinessRules (schema_name : String)
deriving DecidableEq, Repr

/-- Refusal string of `list_schemas` on a repeated call. -/
def list_schemas_refusal : String :=
  "You already listed schemas above. Do NOT call this again — proceed to the next step."

/-- Refusal string of `describe_table` on a repeated call. -/
def describe_refusal (schema_name table_name : String) : String :=
  "You already described " ++ schema_name ++ "." ++ table_name ++
  " above. Do NOT call describe_table on the same table again — use the information you already have and write your query."

/-- Refusal string of `get_business_rules` on a repeated call. -/
def rules_refusal (schema_name : String) : String :=
  "You already retrieved business rules for '" ++ schema_name ++
  "' above. Do NOT call this again — use the rules you already have."

/-- Real (non-deduped) result of a `list_schemas` call. -/
def list_schemas_text (idx : AgentIndex) : String :=
  let guided := get_all_guide_topics idx
  let all_schemas := get_schema_list idx
  let guided_schemas := all_schemas.filter (fun s => guided.contains s)
  let other_schemas := all_schemas.filter (fun s => !(guided.contains s))
  pyJoin "\n"
    (["Available schemas and their tables:", "",
      "Schemas with business rules guides (most likely relevant):"]
     ++ guided_schemas.map (fun s => "  - " ++ s ++ ": " ++ pyJoin ", " (get_tables idx s))
     ++ ["", "Other schemas (no guide): " ++ pyJoin ", " other_schemas])

/-- Result of a `list_tables` call (the tool keeps no state). -/
def list_tables_result (idx : AgentIndex) (schema_name : String) : String :=
  let tables := get_tables idx schema_name
  if tables.isEmpty then
    "Schema '" ++ schema_name ++ "' not found.\nAvailable schemas: " ++
      pyJoin ", " (get_schema_list idx)
  else
    "Tables in " ++ schema_name ++ ":\n" ++
      pyJoin "\n" (tables.map (fun t => "  - " ++ t))

/-- Real (non-deduped) result of a `get_business_rules` call. -/
def business_rules_result (idx : AgentIndex) (schema_name : String) : String :=
  match get_business_rules idx schema_name with
  | some content => content
  | none =>
    "No business rules guide found for schema '" ++ schema_name ++
      "'.\nAvailable guide topics: " ++ pyJoin ", " (get_all_guide_topics idx)

/-- One tool invocation against a session: the returned text and the updated
session dedup state, exactly as in `make_explore_tools` and
`make_business_rules_tool` (note that `describe_table` and
`get_business_rules` mark their key before performing the lookup). -/
def runTool (idx : AgentIndex) (σ : SessionState) : ToolCall → String × SessionState
  | .listSchemas =>
    if σ.schemasListed then (list_schemas_refusal, σ)
    else (list_schemas_text idx, { σ with schemasListed := true })
  | .listTables s => (list_tables_result idx s, σ)
  | .describeTable s t =>
    if (s, t) ∈ σ.described then (describe_refusal s t, σ)
    else (get_table_description idx s t 40, { σ with described := (s, t) :: σ.described })
  | .getBusinessRules s =>
    if s ∈ σ.fetched then (rules_refusal s, σ)
    else (business_rules_result idx s, { σ with fetched := s :: σ.fetched })

/-- One entry of the `columns` list in the cache document. -/
structure CacheColumnDoc where
  name : String
  type : String
  nullable : Bool
deriving DecidableEq, Repr

/-- One table entry of the cache document. -/
structure CacheTableDoc where
  columns : List CacheColumnDoc
  sample_rows : List (List String)
deriving DecidableEq, Repr

/-- One guide entry of the cache document. -/
structure CacheGuideDoc where
  file : String
  content : String
deriving DecidableEq, Repr

/-- The nested cache document written by `AgentIndex._save_cache`: two
top-level keys, `schemas` and `guides`. -/
structure CacheDoc where
  schemas : List (String × List (String × CacheTableDoc))
  guides : List (String × CacheGuideDoc)
deriving DecidableEq, Repr

/-- The `data` document built by `AgentIndex._save_cache`. -/
def save_cache (idx : AgentIndex) : CacheDoc where
  schemas := idx.schemas.map (fun p =>
    (p.1, p.2.map (fun q =>
      (q.1, ⟨q.2.columns.map (fun c => ⟨c.name, c.type, c.nullable⟩), q.2.sample_rows⟩))))
  guides := idx.guides.map (fun p => (p.1, ⟨p.2.file, p.2.content⟩))

/-- Modelled from the spec: the repository has no cache-restoration code
(`§4.3`: "Restoration from cache is not exercised by the query path"), so the
re-parsing direction of the round-trip is taken from the spec's description of
the cache document shape — read the `schemas` and `guides` keys back into an
index with the same column name/type/nullability lists, sample-row cell
strings, and guide file/content. -/
def load_cache (d : CacheDoc) : AgentIndex where
  schemas := d.schemas.map (fun p =>
    (p.1, p.2.map (fun q =>
      (q.1, ⟨q.2.columns.map (fun c => ⟨c.name, c.type, c.nullable⟩), q.2.sample_rows⟩))))
  guides := d.guides.map (fun p => (p.1, ⟨p.2.file, p.2.content⟩))

/-- Follows the spec's words (refinement comparison for the title rule): like
`stripDbSuffix` but stripping the trailing `Database`/`Databases` suffix
case-insensitively, as §4.2 of the spec describes it. -/
def specStripDbSuffixCI (l : List Char) : List Char :=
  let rest := dropWhileEndP pyIsSpace l
  let restL := rest.map Char.toLower
  let core? : Option (List Char) :=
    if "databases".data.isSuffixOf restL then some (rest.take (rest.length - 9))
    else if "database".data.isSuffixOf restL then some (rest.take (rest.length - 8))
    else none
  match core? with
  | none => l
  | some core =>
    let pre := dropWhileEndP pyIsSpace core
    if pre.length < core.length then pre else l

/-- Follows the spec's words: candidate processing with the case-insensitive
suffix strip. -/
def specProcessCandCI (known : List (String × String)) (cand : List Char) : Option String :=
  dictGet known (strLower (String.mk (pyStrip (specStripDbSuffixCI (pyStrip cand)))))

/-- Follows the spec's words: the title-parenthetical rule with the
case-insensitive `Database` suffix strip. -/
def specExtractTitleCI (title : String) (known : List (String × String)) : Option String :=
  match findParenGroup title.data with
  | some inner => (splitSingle isSlashComma inner).findSome? (specProcessCandCI known)
  | none => none

/-- Test fixture: the `financial.loan` table. -/
def loanTable : TableInfo :=
  ⟨[⟨"loan_id", "INTEGER", false⟩, ⟨"amount", "DOUBLE", true⟩],
   [["1", "100.5"], ["2", "200.0"]]⟩

/-- Test fixture: an index with one schema, one table and one guide. -/
def idxFin : AgentIndex :=
  ⟨[("financial", [("loan", loanTable)])],
   [("financial", ⟨"financial_rules.md", "# Financial Database Rules\nAlways filter."⟩)]⟩

/-- Test fixture: a one-column table with one cached sample row. -/
def oneColTable : TableInfo := ⟨[⟨"a", "INTEGER", false⟩], [["x"]]⟩

/-- Test fixture: a three-column table with one cached sample row. -/
def wideTable : TableInfo :=
  ⟨[⟨"c1", "INTEGER", false⟩, ⟨"c2", "INTEGER", false⟩, ⟨"c3", "INTEGER", true⟩],
   [["1", "2", "3"]]⟩

/-- Test fixture: an index holding the two description-test tables. -/
def idxDesc : AgentIndex := ⟨[("s", [("t", oneColTable), ("w", wideTable)])], []⟩

/-- Test fixture: a fresh session with empty dedup state. -/
def emptySession : SessionState := ⟨false, [], []⟩

/-- Test fixture: an index with one schema and no guides, for guide scanning. -/
def idxNoGuides : AgentIndex := ⟨[("financial", [])], []⟩

/-- Test fixture: guide documents for the scan tests — one that only the
filename-fuzzy rule matches, one that nothing matches. -/
def scanDocs : List GuideDoc :=
  [⟨"financial_rules", "financial_rules.md", "General Notes\ntext"⟩,
   ⟨"misc_notes", "misc_notes.md", "Notes\nnothing"⟩]

/-! ### Helper lemmas -/

/-- Strings with different first characters are different. -/
theorem ne_of_head_ne (s t : String) (h : s.data.head? ≠ t.data.head?) : s ≠ t :=
  fun e => h (by rw [e])

/-- `findSome?` returns the image of the first element on which `f` fires. -/
theorem findSome?_eq_of_first {α β : Type} (f : α → Option β) (l : List α)
    (i : Nat) (c : α) (b : β) (hg : l.get? i = some c) (hc : f c = some b)
    (hprev : ∀ j, j < i → ((l.get? j).bind f) = none) :
    l.findSome? f = some b := by
  induction l generalizing i with
  | nil => simp at hg
  | cons a tl ih =>
    cases i with
    | zero =>
      simp only [List.get?] at hg
      cases hg
      simp [List.findSome?_cons, hc]
    | succ n =>
      have h0 := hprev 0 (Nat.succ_pos n)
      simp only [List.get?, Option.some_bind] at h0
      simp only [List.findSome?_cons, h0]
      exact ih n (by simpa using hg)
        (fun j hj => by simpa using hprev (j + 1) (Nat.succ_lt_succ hj))

/-! ### C9 — cache round trip -/

/-- C9: serializing an index to the cache document (two top-level keys
`schemas` and `guides`) and re-parsing that document yields column
name/type/nullability lists, sample-row cell strings, and guide file/content
identical to the in-memory source. -/
theorem C9_cache_round_trip (idx : AgentIndex) : load_cache (save_cache idx) = idx := by
  cases idx with
  | mk schemas guides =>
    simp only [save_cache, load_cache, List.map_map, AgentIndex.mk.injEq]
    constructor
    · conv_rhs => rw [← List.map_id schemas]
      refine List.map_congr_left ?_
      rintro ⟨s, ts⟩ _
      simp only [Function.comp_apply, id_eq, Prod.mk.injEq, List.map_map, true_and]
      conv_rhs => rw [← List.map_id ts]
      refine List.map_congr_left ?_
      rintro ⟨t, info⟩ _
      simp only [Function.comp_apply, id_eq, Prod.mk.injEq, List.map_map, true_and]
      cases info with
      | mk cols samples =>
        simp only [TableInfo.mk.injEq, and_true]
        conv_rhs => rw [← List.map_id cols]
        exact List.map_congr_left (fun c _ => rfl)
    · conv_rhs => rw [← List.map_id guides]
      exact List.map_congr_left (fun p _ => rfl)

/-! ### C10 — list_tables keeps no dedup state -/

/-- C10: `list_tables` keeps no dedup state: for every schema name and every
session state, a call returns the real result (table listing or not-found
guidance) and leaves the session unchanged, a repeated identical call behaves
identically, and the result is never one of the three refusal strings. -/
theorem C10_list_tables_stateless (idx : AgentIndex) (σ : SessionState) (s a b : String) :
    runTool idx σ (.listTables s) = (list_tables_result idx s, σ) ∧
    runTool idx (runTool idx σ (.listTables s)).2 (.listTables s) =
      runTool idx σ (.listTables s) ∧
    list_tables_result idx s ≠ describe_refusal a b ∧
    list_tables_result idx s ≠ rules_refusal a ∧
    list_tables_result idx s ≠ list_schemas_refusal := by
  have hY1 : (describe_refusal a b).data.head? = some 'Y' := rfl
  have hY2 : (rules_refusal a).data.head? = some 'Y' := rfl
  have hY3 : (list_schemas_refusal).data.head? = some 'Y' := rfl
  have hHead : (list_tables_result idx s).data.head? = some 'S' ∨
      (list_tables_result idx s).data.head? = some 'T' := by
    unfold list_tables_result
    by_cases h : (get_tables idx s).isEmpty
    · left; simp only [h, if_true]; rfl
    · right; simp only [h, if_false]; rfl
  refine ⟨rfl, rfl, ?_, ?_, ?_⟩ <;>
    refine ne_of_head_ne _ _ ?_ <;>
    rcases hHead with h | h <;> simp [h, hY1, hY2, hY3]

/-! ### C1 — failed lookups and dedup state (corrected) -/

/-- C1 counterexample: with a fresh session, `describe_table` on a missing
table returns the "not found" text, but a second identical call returns the
fixed refusal string rather than the "not found" guidance again — the failed
lookup did change the dedup state. -/
theorem C1_counterexample :
    (runTool idxFin emptySession (.describeTable "financial" "missing_table")).1 =
      "Table 'financial.missing_table' not found." ∧
    (runTool idxFin (runTool idxFin emptySession
        (.describeTable "financial" "missing_table")).2
        (.describeTable "financial" "missing_table")).1 =
      describe_refusal "financial" "missing_table" ∧
    describe_refusal "financial" "missing_table" ≠
      "Table 'financial.missing_table' not found." := by
  refine ⟨rfl, ?_, by decide⟩
  rfl

/-- C1 amended: a `describe_table` or `get_business_rules` call whose lookup
fails DOES change the session's dedup state — the key is marked shown on the
first call regardless of success, so the first call returns the "not found"
guidance and every subsequent identical call returns the fixed refusal
string. -/
theorem C1_amended_failed_lookup_dedups (idx : AgentIndex) (σ : SessionState)
    (s t u : String)
    (hD : (s, t) ∉ σ.described) (hF : u ∉ σ.fetched)
    (hT : get_table_info idx s t = none)
    (hG : get_business_rules idx u = none) :
    (runTool idx σ (.describeTable s t)).1 =
      "Table '" ++ s ++ "." ++ t ++ "' not found." ∧
    (s, t) ∈ (runTool idx σ (.describeTable s t)).2.described ∧
    (runTool idx (runTool idx σ (.describeTable s t)).2 (.describeTable s t)).1 =
      describe_refusal s t ∧
    (runTool idx σ (.getBusinessRules u)).1 =
      "No business rules guide found for schema '" ++ u ++
        "'.\nAvailable guide topics: " ++ pyJoin ", " (get_all_guide_topics idx) ∧
    u ∈ (runTool idx σ (.getBusinessRules u)).2.fetched ∧
    (runTool idx (runTool idx σ (.getBusinessRules u)).2 (.getBusinessRules u)).1 =
      rules_refusal u := by
  refine ⟨?_, ?_, ?_, ?_, ?_, ?_⟩
  · simp [runTool, hD, get_table_description, hT]
  · simp [runTool, hD]
  · simp [runTool, hD]
  · simp [runTool, hF, business_rules_result, hG]
  · simp [runTool, hF]
  · simp [runTool, hF]

/-- C1 amended witness at a concrete index and fresh session. -/
theorem C1_amended_witness :
    (("financial", "missing_table") ∉ emptySession.described) ∧
    ("nope" ∉ emptySession.fetched) ∧
    get_table_info idxFin "financial" "missing_table" = none ∧
    get_business_rules idxFin "nope" = none ∧
    (runTool idxFin emptySession (.describeTable "financial" "missing_table")).1 =
      "Table '" ++ "financial" ++ "." ++ "missing_table" ++ "' not found." :=
  ⟨by decide, by decide, by decide, by decide,
   (C1_amended_failed_lookup_dedups idxFin emptySession "financial" "missing_table"
      "nope" (by decide) (by decide) (by decide) (by decide)).1⟩

/-! ### C2 — unknown names at query time (corrected) -/

/-- C2 counterexample: the `describe_table` lookup failure text for an unknown
table is the fixed sentence with no listing of the valid alternatives — the
available table name `loan` does not occur in it at all. -/
theorem C2_counterexample :
    get_tables idxFin "financial" = ["loan"] ∧
    get_table_description idxFin "financial" "missing" =
      "Table 'financial.missing' not found." ∧
    ¬ ("loan".data <:+: (get_table_description idxFin "financial" "missing").data) ∧
    ¬ ("Available".data <:+: (get_table_description idxFin "financial" "missing").data) := by
  refine ⟨rfl, rfl, by decide, by decide⟩

/-- C2 amended: for unknown names no operation raises — each returns a
structured "not found" text; `list_tables` lists the available schemas and
`get_business_rules` lists the available guide topics, but `describe_table`
(via `getTable`) returns only the fixed sentence `Table 'schema.table' not
found.` without listing alternatives. -/
theorem C2_amended_not_found_results (idx : AgentIndex) (s t u v : String)
    (hT : get_table_info idx s t = none)
    (hL : get_tables idx v = [])
    (hG : get_business_rules idx u = none) :
    get_table_description idx s t 40 =
      "Table '" ++ s ++ "." ++ t ++ "' not found." ∧
    list_tables_result idx v =
      "Schema '" ++ v ++ "' not found.\nAvailable schemas: " ++
        pyJoin ", " (get_schema_list idx) ∧
    business_rules_result idx u =
      "No business rules guide found for schema '" ++ u ++
        "'.\nAvailable guide topics: " ++ pyJoin ", " (get_all_guide_topics idx) := by
  refine ⟨?_, ?_, ?_⟩
  · simp [get_table_description, hT]
  · simp [list_tables_result, hL]
  · simp [business_rules_result, hG]

/-- C2 amended witness at a concrete index. -/
theorem C2_amended_witness :
    get_table_info idxFin "financial" "missing" = none ∧
    get_tables idxFin "nope" = [] ∧
    get_business_rules idxFin "other" = none ∧
    list_tables_result idxFin "nope" =
      "Schema '" ++ "nope" ++ "' not found.\nAvailable schemas: " ++
        pyJoin ", " (get_schema_list idxFin) :=
  ⟨by decide, by decide, by decide,
   (C2_amended_not_found_results idxFin "financial" "missing" "other" "nope"
      (by decide) (by decide) (by decide)).2.1⟩

/-! ### C4 — truncated table description -/

/-- C4: when a table's column count exceeds `max_columns`, the description
reports the total column count in its header, lists exactly `max_columns`
columns as `name (type[, nullable])`, appends the count of omitted columns and
the sampling-query hint, and omits the sample-rows section entirely even when
cached sample rows exist. -/
theorem C4_truncated_description (idx : AgentIndex) (schema table : String)
    (m : Nat) (info : TableInfo)
    (hI : get_table_info idx schema table = some info)
    (hT : m < info.columns.length)
    (hS : info.sample_rows ≠ []) :
    get_table_description idx schema table m =
      pyJoin "\n" (table_desc_lines schema table m info) ∧
    table_desc_lines schema table m info =
      ["Table: " ++ schema ++ "." ++ table ++ " (" ++
         toString info.columns.length ++ " columns)", "", "Columns:"]
      ++ (info.columns.take m).map fmtColumn
      ++ ["  ... and " ++ toString (info.columns.length - m) ++ " more columns",
          "  (Use run_query with SELECT * ... LIMIT 3 to see all columns)"] ∧
    ((info.columns.take m).map fmtColumn).length = m := by
  refine ⟨?_, ?_, ?_⟩
  · simp [get_table_description, hI]
  · simp [table_desc_lines, hT]
  · simp [List.length_take, Nat.min_eq_left (Nat.le_of_lt hT)]

/-- C4 witness: a three-column table described with `max_columns = 2`. -/
theorem C4_truncated_description_witness :
    get_table_info idxDesc "s" "w" = some wideTable ∧
    2 < wideTable.columns.length ∧
    wideTable.sample_rows ≠ [] ∧
    ((wideTable.columns.take 2).map fmtColumn).length = 2 :=
  ⟨by decide, by decide, by decide,
   (C4_truncated_description idxDesc "s" "w" 2 wideTable
      (by decide) (by decide) (by decide)).2.2⟩

/-! ### C5 — sample-row rendering (corrected: separator width) -/

/-- The numeric separator fold is the running sum of `name length + 3`. -/
theorem foldl_len_plus_three (l : List String) (k : Nat) :
    l.foldl (fun a n => a + (n.length + 3)) k =
      k + (l.map (fun n => n.length + 3)).sum := by
  induction l generalizing k with
  | nil => simp
  | cons x xs ih => simp [ih, Nat.add_assoc]

/-- Length of the `" | "`-joined fold in terms of the same sum. -/
theorem foldl_join_length (l : List String) (acc : String) :
    (l.foldl (fun ac y => ac ++ " | " ++ y) acc).length =
      acc.length + (l.map (fun n => n.length + 3)).sum := by
  induction l generalizing acc with
  | nil => simp
  | cons x xs ih =>
    have h3l : (" | " : String).length = 3 := rfl
    simp only [List.foldl_cons, ih, String.length_append, List.map_cons, List.sum_cons]
    omega

/-- For a non-empty list of names, the dash count of the separator exceeds the
length of the joined header text by exactly 3. -/
theorem sep_count_eq_join_length_add_three (l : List String) (h : l ≠ []) :
    l.foldl (fun a n => a + (n.length + 3)) 0 = (pyJoin " | " l).length + 3 := by
  cases l with
  | nil => exact absurd rfl h
  | cons x xs =>
    simp only [pyJoin, foldl_len_plus_three, foldl_join_length, List.map_cons,
      List.sum_cons]
    omega

/-- C5 counterexample: for a one-column table with one sample row, the
rendered header row is `"  a"` (3 characters) while the separator line is
`"  ----"` (6 characters) — their character widths are not equal. -/
theorem C5_counterexample :
    table_desc_lines "s" "t" 40 oneColTable =
      ["Table: s.t (1 columns)", "", "Columns:", "  a (INTEGER)", "",
       "Sample rows (1):", "  a", "  ----", "  x"] ∧
    ("  ----" : String).length ≠ ("  a" : String).length ∧
    ("----" : String).length ≠ ("a" : String).length := by
  refine ⟨rfl, by decide, by decide⟩

/-- C5 amended: for a table with at most `max_columns` columns (at least one)
and a non-empty cached sample, the description renders the header row of the
column names in catalog order, then a separator line of dashes whose character
width exceeds the header row's character width by exactly 3 (its dash count is
the sum over the columns of `name length + 3`), then each sample row's cells
joined with the delimiter, one line per sample row. -/
theorem C5_amended_sample_rendering (schema table : String) (m : Nat)
    (info : TableInfo)
    (hNT : info.columns.length ≤ m)
    (hS : info.sample_rows ≠ [])
    (hC : info.columns ≠ []) :
    table_desc_lines schema table m info =
      ["Table: " ++ schema ++ "." ++ table ++ " (" ++
         toString info.columns.length ++ " columns)", "", "Columns:"]
      ++ info.columns.map fmtColumn
      ++ ["", "Sample rows (" ++ toString info.sample_rows.length ++ "):",
          "  " ++ pyJoin " | " (info.columns.map (fun c => c.name)),
          "  " ++ String.mk (List.replicate
            ((info.columns.map (fun c => c.name)).foldl
              (fun a n => a + (n.length + 3)) 0) '-')]
      ++ info.sample_rows.map (fun row => "  " ++ pyJoin " | " (row.take m)) ∧
    ("  " ++ String.mk (List.replicate
        ((info.columns.map (fun c => c.name)).foldl
          (fun a n => a + (n.length + 3)) 0) '-')).length =
      ("  " ++ pyJoin " | " (info.columns.map (fun c => c.name))).length + 3 ∧
    (info.sample_rows.map
        (fun row => "  " ++ pyJoin " | " (row.take m))).length =
      info.sample_rows.length := by
  have hnames : info.columns.map (fun c => c.name) ≠ [] := by
    intro h
    exact hC (List.map_eq_nil_iff.mp h)
  refine ⟨?_, ?_, ?_⟩
  · have hdec : decide (m < info.columns.length) = false :=
      decide_eq_false (Nat.not_lt.mpr hNT)
    have hemp : info.sample_rows.isEmpty = false := List.isEmpty_eq_false.mpr hS
    simp only [table_desc_lines, sampleSection, hdec, hemp, Bool.not_false,
      Bool.and_true, if_false, Bool.false_eq_true, List.take_of_length_le hNT,
      List.append_nil, if_true, List.append_assoc, List.nil_append,
      List.cons_append, List.singleton_append]
  · have hmk : (String.mk (List.replicate
        ((info.columns.map (fun c => c.name)).foldl
          (fun a n => a + (n.length + 3)) 0) '-')).length =
        (info.columns.map (fun c => c.name)).foldl
          (fun a n => a + (n.length + 3)) 0 :=
      List.length_replicate _ _
    rw [String.length_append, String.length_append, hmk,
      sep_count_eq_join_length_add_three _ hnames]
    omega
  · simp

/-- C5 amended witness: the one-column table with one sample row. -/
theorem C5_amended_sample_rendering_witness :
    oneColTable.columns.length ≤ 40 ∧
    oneColTable.sample_rows ≠ [] ∧
    oneColTable.columns ≠ [] ∧
    ("  " ++ String.mk (List.replicate
        ((oneColTable.columns.map (fun c => c.name)).foldl
          (fun a n => a + (n.length + 3)) 0) '-')).length =
      ("  " ++ pyJoin " | " (oneColTable.columns.map (fun c => c.name))).length + 3 :=
  ⟨by decide, by decide, by decide,
   (C5_amended_sample_rendering "s" "t" 40 oneColTable
      (by decide) (by decide) (by decide)).2.1⟩

/-! ### C3 — title-parenthetical rule (corrected: suffix strip is
case-sensitive) -/

/-- C3 counterexample: with known schema `financial` and title
`"Rules (financial database)"`, the case-insensitive suffix strip the claim
describes would assign the guide to `financial` (shown by the spec-worded
variant `specExtractTitleCI`), but the code's matcher — whose
`re.sub(r"\s+Databases?\s*$", ...)` is case-sensitive — matches nothing and
the guide is dropped. -/
theorem C3_counterexample :
    extract_schema_from_title "Rules (financial database)"
      [("financial", "financial")] = none ∧
    specExtractTitleCI "Rules (financial database)"
      [("financial", "financial")] = some "financial" ∧
    (scan_guides idxNoGuides
      [⟨"notes", "notes.md", "# Rules (financial database)\ntext"⟩]).guides = [] := by
  refine ⟨rfl, rfl, rfl⟩

/-- C3 amended: for a guide whose stripped first line contains a parenthesized
group, the matcher splits the group's contents on `/` or `,`, and for each
candidate in order strips surrounding whitespace and a trailing literal
`Database`/`Databases` suffix case-SENSITIVELY, then matches the remainder
case-insensitively against the known schema names; the first candidate that
matches determines the guide's schema. -/
theorem C3_amended_title_paren (title : String) (known : List (String × String))
    (inner c : List Char) (i : Nat) (s : String)
    (h1 : findParenGroup title.data = some inner)
    (h2 : (splitSingle isSlashComma inner).get? i = some c)
    (h3 : processCand known c = some s)
    (h4 : ∀ j, j < i →
      (((splitSingle isSlashComma inner).get? j).bind (processCand known)) = none) :
    extract_schema_from_title title known = some s := by
  have hf := findSome?_eq_of_first (processCand known) _ i c s h2 h3 h4
  simp [extract_schema_from_title, h1, hf]

/-- C3 amended witness: the spec's own example — `"Rules (Credit / CreditCard)"`
against known schema `creditcard` matches on the second candidate. -/
theorem C3_amended_title_paren_witness :
    findParenGroup "Rules (Credit / CreditCard)".data =
      some "Credit / CreditCard".data ∧
    (splitSingle isSlashComma "Credit / CreditCard".data).get? 1 =
      some " CreditCard".data ∧
    processCand [("creditcard", "creditcard")] " CreditCard".data =
      some "creditcard" ∧
    (∀ j, j < 1 →
      (((splitSingle isSlashComma "Credit / CreditCard".data).get? j).bind
        (processCand [("creditcard", "creditcard")])) = none) ∧
    extract_schema_from_title "Rules (Credit / CreditCard)"
      [("creditcard", "creditcard")] = some "creditcard" :=
  ⟨by decide, by decide, by decide, by decide,
   C3_amended_title_paren "Rules (Credit / CreditCard)" [("creditcard", "creditcard")]
     "Credit / CreditCard".data " CreditCard".data 1 "creditcard"
     (by decide) (by decide) (by decide) (by decide)⟩

/-! ### C6 — per-session dedup state machine -/

/-- C6: within one session, for each tracked dedup key (the list-schemas flag,
each `(schema, table)` pair, each business-rules schema): the first call
returns the real façade result, every subsequent identical call returns the
fixed refusal string, the shown state is irreversible under any further tool
call, and the keys are independent — a call for a different, not-yet-shown key
still returns the real result. -/
theorem C6_dedup_state_machine (idx : AgentIndex) (σ σm : SessionState)
    (c : ToolCall) (s t s2 t2 u u2 p q r : String)
    (hL : σ.schemasListed = false)
    (hD : (s, t) ∉ σ.described)
    (hD2 : (s2, t2) ∉ σ.described) (hne : (s2, t2) ≠ (s, t))
    (hF : u ∉ σ.fetched) (hF2 : u2 ∉ σ.fetched) (hneu : u2 ≠ u)
    (hmL : σm.schemasListed = true)
    (hmD : (p, q) ∈ σm.described) (hmF : r ∈ σm.fetched) :
    (runTool idx σ .listSchemas).1 = list_schemas_text idx ∧
    (runTool idx (runTool idx σ .listSchemas).2 .listSchemas).1 =
      list_schemas_refusal ∧
    (runTool idx σ (.describeTable s t)).1 = get_table_description idx s t 40 ∧
    (runTool idx (runTool idx σ (.describeTable s t)).2 (.describeTable s t)).1 =
      describe_refusal s t ∧
    (runTool idx (runTool idx σ (.describeTable s t)).2 (.describeTable s2 t2)).1 =
      get_table_description idx s2 t2 40 ∧
    (runTool idx σ (.getBusinessRules u)).1 = business_rules_result idx u ∧
    (runTool idx (runTool idx σ (.getBusinessRules u)).2 (.getBusinessRules u)).1 =
      rules_refusal u ∧
    (runTool idx (runTool idx σ (.getBusinessRules u)).2 (.getBusinessRules u2)).1 =
      business_rules_result idx u2 ∧
    (runTool idx σm c).2.schemasListed = true ∧
    (p, q) ∈ (runTool idx σm c).2.described ∧
    r ∈ (runTool idx σm c).2.fetched := by
  refine ⟨?_, ?_, ?_, ?_, ?_, ?_, ?_, ?_, ?_, ?_, ?_⟩
  · simp [runTool, hL]
  · simp [runTool, hL]
  · simp [runTool, hD]
  · simp [runTool, hD]
  · simp [runTool, hD, List.mem_cons, hne, hD2]
  · simp [runTool, hF]
  · simp [runTool, hF]
  · simp [runTool, hF, List.mem_cons, hneu, hF2]
  · cases c <;> simp only [runTool] <;> (try split) <;> simp [hmL]
  · cases c <;> simp only [runTool] <;> (try split) <;>
      simp [hmD, List.mem_cons_of_mem]
  · cases c <;> simp only [runTool] <;> (try split) <;>
      simp [hmF, List.mem_cons_of_mem]

/-- C6 witness: fresh session against the concrete index, plus a session with
every kind of shown state for the irreversibility part. -/
theorem C6_dedup_state_machine_witness :
    emptySession.schemasListed = false ∧
    (("financial", "loan") ∉ emptySession.described) ∧
    (runTool idxFin emptySession (.describeTable "financial" "loan")).1 =
      get_table_description idxFin "financial" "loan" 40 ∧
    (runTool idxFin (runTool idxFin emptySession
        (.describeTable "financial" "loan")).2 (.describeTable "financial" "loan")).1 =
      describe_refusal "financial" "loan" :=
  ⟨rfl, by decide,
   (C6_dedup_state_machine idxFin emptySession ⟨true, [("a", "b")], ["c"]⟩
      .listSchemas "financial" "loan" "financial" "trans" "financial" "other"
      "a" "b" "c" rfl (by decide) (by decide) (by decide) (by decide) (by decide)
      (by decide) rfl (by decide) (by decide)).2.2.1,
   (C6_dedup_state_machine idxFin emptySession ⟨true, [("a", "b")], ["c"]⟩
      .listSchemas "financial" "loan" "financial" "trans" "financial" "other"
      "a" "b" "c" rfl (by decide) (by decide) (by decide) (by decide) (by decide)
      (by decide) rfl (by decide) (by decide)).2.2.2.1⟩

/-! ### C8 — filename-fuzzy rule -/

/-- C8: the filename-fuzzy rule applies only when both title rules fail
(`extract_schema_from_title` returned nothing): it splits the lowercased
filename stem on runs of `_`, `-` or whitespace and assigns the guide to the
schema matched by the first token that equals a known schema name
case-insensitively; conversely, when a title rule matches, the guide is
attached to that schema with the filename never consulted. -/
theorem C8_filename_fuzzy (known : List (String × String)) (acc : AgentIndex)
    (doc : GuideDoc) (i : Nat) (tok : List Char) (s : String)
    (hE : extract_schema_from_title (firstLineTitle doc.content) known = none)
    (h2 : (splitRuns fuzzySep (strLower doc.stem).data).get? i = some tok)
    (h3 : dictGet known (String.mk tok) = some s)
    (h4 : ∀ j, j < i →
      (((splitRuns fuzzySep (strLower doc.stem).data).get? j).bind
        (fun tk => dictGet known (String.mk tk))) = none) :
    fuzzy_match_filename doc.stem known = some s ∧
    scan_guide_step known acc doc =
      { acc with guides := dictInsert acc.guides s ⟨doc.file, doc.content⟩ } ∧
    ∀ (doc2 : GuideDoc) (s0 : String),
      extract_schema_from_title (firstLineTitle doc2.content) known = some s0 →
      scan_guide_step known acc doc2 =
        { acc with guides := dictInsert acc.guides s0 ⟨doc2.file, doc2.content⟩ } := by
  have hf : fuzzy_match_filename doc.stem known = some s :=
    findSome?_eq_of_first _ _ i tok s h2 h3 h4
  refine ⟨hf, ?_, ?_⟩
  · simp [scan_guide_step, hE, hf]
  · intro doc2 s0 h
    simp [scan_guide_step, h]

/-- C8 witness: the spec's filename-fallback example — title with no
parenthetical or `Database` pattern, filename stem `financial_rules`, known
schema `financial`. -/
theorem C8_filename_fuzzy_witness :
    extract_schema_from_title (firstLineTitle "General Notes\ntext")
      [("financial", "financial")] = none ∧
    (splitRuns fuzzySep (strLower "financial_rules").data).get? 0 =
      some "financial".data ∧
    dictGet [("financial", "financial")] (String.mk "financial".data) =
      some "financial" ∧
    fuzzy_match_filename "financial_rules" [("financial", "financial")] =
      some "financial" ∧
    scan_guide_step [("financial", "financial")] idxNoGuides
      ⟨"financial_rules", "financial_rules.md", "General Notes\ntext"⟩ =
      { idxNoGuides with guides := dictInsert idxNoGuides.guides "financial" ⟨"financial_rules.md", "General Notes\ntext"⟩ } :=
  ⟨by decide, by decide, by decide,
   (C8_filename_fuzzy [("financial", "financial")] idxNoGuides
      ⟨"financial_rules", "financial_rules.md", "General Notes\ntext"⟩ 0
      "financial".data "financial" (by decide) (by decide) (by decide)
      (by decide)).1,
   (C8_filename_fuzzy [("financial", "financial")] idxNoGuides
      ⟨"financial_rules", "financial_rules.md", "General Notes\ntext"⟩ 0
      "financial".data "financial" (by decide) (by decide) (by decide)
      (by decide)).2.1⟩

/-! ### C7 — guide mapping invariant -/

/-- A successful `dictGet` returns one of the stored values. -/
theorem dictGet_mem_snd {α : Type} (d : List (String × α)) (k : String) (v : α)
    (h : dictGet d k = some v) : v ∈ d.map Prod.snd := by
  unfold dictGet at h
  rcases Option.map_eq_some'.mp h with ⟨p, hp, rfl⟩
  exact List.mem_map_of_mem Prod.snd (List.mem_of_find?_eq_some hp)

/-- Membership after a `dictInsert`: the new binding or an old one. -/
theorem mem_dictInsert {α : Type} (d : List (String × α)) (k : String) (v : α)
    (p : String × α) (h : p ∈ dictInsert d k v) : p = (k, v) ∨ p ∈ d := by
  unfold dictInsert at h
  by_cases hc : d.any (fun q => q.1 == k)
  · rw [if_pos hc] at h
    rcases List.mem_map.mp h with ⟨q, hq, hfq⟩
    by_cases he : q.1 == k
    · left; rw [if_pos he] at hfq; exact hfq.symm
    · right; rw [if_neg he] at hfq; exact hfq ▸ hq
  · rw [if_neg hc] at h
    rcases List.mem_append.mp h with h' | h'
    · exact Or.inr h'
    · left; simpa using h'

/-- Every value stored in `knownLower names` is one of `names`. -/
theorem knownLower_snd_mem (names : List String) (p : String × String)
    (hp : p ∈ knownLower names) : p.2 ∈ names := by
  suffices h : ∀ (ns : List String) (acc : List (String × String)),
      (∀ q ∈ acc, q.2 ∈ names) → (∀ s ∈ ns, s ∈ names) →
      ∀ q ∈ ns.foldl (fun a s => dictInsert a (strLower s) s) acc, q.2 ∈ names by
    exact h names [] (by simp) (fun s hs => hs) p hp
  intro ns
  induction ns with
  | nil => intro acc hacc _ q hq; exact hacc q hq
  | cons a tl ih =>
    intro acc hacc hns q hq
    refine ih (dictInsert acc (strLower a) a) ?_ (fun s hs => hns s (List.mem_cons_of_mem a hs)) q hq
    intro q' hq'
    rcases mem_dictInsert _ _ _ _ hq' with h' | h'
    · rw [h']; exact hns a (List.mem_cons_self a tl)
    · exact hacc q' h'

/-- A schema produced by `knownLower names` lookup is one of `names`. -/
theorem dictGet_knownLower_mem (names : List String) (k s : String)
    (h : dictGet (knownLower names) k = some s) : s ∈ names := by
  rcases List.mem_map.mp (dictGet_mem_snd _ _ _ h) with ⟨p, hp, hps⟩
  exact hps ▸ knownLower_snd_mem names p hp

/-- A title-rule match is always a value of the known-schema mapping. -/
theorem extract_title_mem (title : String) (names : List String) (s : String)
    (h : extract_schema_from_title title (knownLower names) = some s) :
    s ∈ names := by
  unfold extract_schema_from_title at h
  rcases hP : findParenGroup title.data with _ | inner <;> rw [hP] at h <;>
    simp only at h
  · rcases hW : searchWordDatabase title.data with _ | w <;> rw [hW] at h
    · simp at h
    · exact dictGet_knownLower_mem _ _ _ h
  · rcases hF : (splitSingle isSlashComma inner).findSome?
        (processCand (knownLower names)) with _ | s' <;> rw [hF] at h
    · simp only at h
      rcases hW : searchWordDatabase title.data with _ | w <;> rw [hW] at h
      · simp at h
      · exact dictGet_knownLower_mem _ _ _ h
    · cases h
      rcases List.exists_of_findSome?_eq_some hF with ⟨cand, _, hcand⟩
      exact dictGet_knownLower_mem _ _ _ hcand

/-- A filename-fuzzy match is always a value of the known-schema mapping. -/
theorem fuzzy_mem (stem : String) (names : List String) (s : String)
    (h : fuzzy_match_filename stem (knownLower names) = some s) : s ∈ names := by
  unfold fuzzy_match_filename at h
  rcases List.exists_of_findSome?_eq_some h with ⟨tok, _, htok⟩
  exact dictGet_knownLower_mem _ _ _ htok

/-- `scan_guide_step` never touches the schema mapping. -/
theorem scan_guide_step_schemas (known : List (String × String))
    (acc : AgentIndex) (doc : GuideDoc) :
    (scan_guide_step known acc doc).schemas = acc.schemas := by
  unfold scan_guide_step
  rcases extract_schema_from_title (firstLineTitle doc.content) known with _ | s
  · rcases fuzzy_match_filename doc.stem known with _ | s' <;> rfl
  · rfl

/-- Fold invariant: scanning guide documents only ever attaches guides to
schema names of the index the known-schema mapping was built from. -/
theorem scan_fold_invariant (names : List String) (docs : List GuideDoc)
    (acc : AgentIndex) (hInv : ∀ p ∈ acc.guides, p.1 ∈ names) :
    ∀ p ∈ (docs.foldl (scan_guide_step (knownLower names)) acc).guides,
      p.1 ∈ names := by
  induction docs generalizing acc with
  | nil => exact hInv
  | cons d tl ih =>
    refine ih _ ?_
    intro p hp
    unfold scan_guide_step at hp
    rcases hE : extract_schema_from_title (firstLineTitle d.content)
        (knownLower names) with _ | s <;> rw [hE] at hp <;> simp only at hp
    · rcases hF : fuzzy_match_filename d.stem (knownLower names) with _ | s' <;>
        rw [hF] at hp <;> simp only at hp
      · exact hInv p hp
      · rcases mem_dictInsert _ _ _ _ hp with h' | h'
        · rw [h']; exact fuzzy_mem _ _ _ hF
        · exact hInv p h'
    · rcases mem_dictInsert _ _ _ _ hp with h' | h'
      · rw [h']; exact extract_title_mem _ _ _ hE
      · exact hInv p h'

/-- Fold invariant: scanning guide documents never changes the schemas. -/
theorem scan_fold_schemas (known : List (String × String)) (docs : List GuideDoc)
    (acc : AgentIndex) :
    (docs.foldl (scan_guide_step known) acc).schemas = acc.schemas := by
  induction docs generalizing acc with
  | nil => rfl
  | cons d tl ih => rw [List.foldl_cons, ih, scan_guide_step_schemas]

/-- C7: starting from a build with no guides, every key of the guide mapping
after scanning is a key of the schema mapping (a guide never attaches to an
unknown schema), the schema mapping itself is unchanged, and a document that
matches no known schema under any rule leaves the guide mapping untouched. -/
theorem C7_guides_subset_schemas (idx : AgentIndex) (docs : List GuideDoc)
    (h0 : idx.guides = []) :
    (∀ p ∈ (scan_guides idx docs).guides, p.1 ∈ idx.schemas.map Prod.fst) ∧
    (scan_guides idx docs).schemas = idx.schemas ∧
    (∀ (acc : AgentIndex) (doc : GuideDoc),
      extract_schema_from_title (firstLineTitle doc.content)
        (knownLower (idx.schemas.map Prod.fst)) = none →
      fuzzy_match_filename doc.stem
        (knownLower (idx.schemas.map Prod.fst)) = none →
      scan_guide_step (knownLower (idx.schemas.map Prod.fst)) acc doc = acc) := by
  refine ⟨?_, scan_fold_schemas _ _ _, ?_⟩
  · exact scan_fold_invariant _ docs idx (by simp [h0])
  · intro acc doc h1 h2
    simp [scan_guide_step, h1, h2]

/-- C7 witness: a concrete build with one schema and two documents, one
matched by filename and one unmatched (dropped). -/
theorem C7_guides_subset_schemas_witness :
    idxNoGuides.guides = [] ∧
    (∀ p ∈ (scan_guides idxNoGuides scanDocs).guides,
      p.1 ∈ idxNoGuides.schemas.map Prod.fst) :=
  ⟨rfl, (C7_guides_subset_schemas idxNoGuides scanDocs rfl).1⟩

end AgentIdx
